import Mathlib

/-!
Shallow embedding of the Hydropulse telemetry-orchestration core
(`src/core/telemetry.core.ts`) and proofs about its circuit breaker,
bounded event queue, retry scheduler, sanitizer and fallback switching.

TypeScript async methods are modelled as pure state-passing functions.
Each `await provider.xxx(...)` call site takes the provider's outcome as an
explicit `Except String _` argument (the oracle for that I/O); `try/catch`
becomes a `match` on that `Except`, and a TS `throw` that escapes a method
becomes an `.error` component of the method's result.  `Date.now()` is an
explicit `now : Nat` argument.  Payloads (`MetricData`/`TraceData`/`LogData`)
are abstracted by a type parameter `α`, since the orchestrator never inspects
them except through `sanitizeData`, which is modelled separately.
-/

namespace Hydropulse

/-- `'closed' | 'open' | 'half-open'` from `CircuitBreakerState.state`. -/
inductive CBStateTag
  | closed
  | «open»
  | halfOpen
  deriving DecidableEq, Repr

/-- `CircuitBreakerState` from `telemetry.interfaces.ts`: `lastFailureTime`
and `nextAttemptTime` are optional fields (absent until first opening). -/
structure CircuitBreakerState where
  state : CBStateTag
  failureCount : Nat
  lastFailureTime : Option Nat := none
  nextAttemptTime : Option Nat := none
  deriving DecidableEq, Repr

/-- `config.circuitBreaker` after normalization. -/
structure CircuitBreakerConfig where
  failureThreshold : Nat
  resetTimeoutMs : Nat
  deriving DecidableEq, Repr

/-- `config.retry` after normalization. -/
structure RetryConfig where
  maxAttempts : Nat
  backoffMultiplier : Nat
  initialDelayMs : Nat
  deriving DecidableEq, Repr

/-- `config.batching` after normalization. -/
structure BatchingConfig where
  maxQueueSize : Nat
  scheduledDelayMillis : Nat
  deriving DecidableEq, Repr

/-- `'metric' | 'trace' | 'log'` from `TelemetryEvent.type`. -/
inductive EventType
  | metric
  | trace
  | log
  deriving DecidableEq, Repr

/-- `TelemetryEvent` envelope: tagged payload, timestamp, optional retry
counter (`retryCount?: number`, absent until the first retry fires). -/
structure TelemetryEvent (α : Type) where
  type : EventType
  data : α
  timestamp : Nat
  retryCount : Option Nat := none
  deriving DecidableEq, Repr

/-- Which of the two provider instances `currentProvider` points at. -/
inductive ProviderId
  | primary
  | fallback
  deriving DecidableEq, Repr

/-- The mutable fields of `TelemetryCore` that the orchestration logic
touches.  `retryTimeouts` (a `Map<string, Timeout>` in the source) is
modelled as the list of armed timers: key, delay in ms, and the event the
timer will re-process when it fires. -/
structure CoreState (α : Type) where
  circuitBreakerState : CircuitBreakerState
  eventQueue : List (TelemetryEvent α)
  currentProvider : ProviderId
  isInitialized : Bool
  retryTimeouts : List (String × Nat × TelemetryEvent α)
  metricsCount : Nat
  deriving DecidableEq, Repr

/-- `initializeCircuitBreaker`: fresh breaker, closed with zero failures. -/
def initializeCircuitBreaker : CircuitBreakerState :=
  { state := .closed, failureCount := 0 }

/-- `openCircuitBreaker`: state := open, failureCount incremented,
`lastFailureTime = now`, `nextAttemptTime = now + resetTimeoutMs`. -/
def openCircuitBreaker (cfg : CircuitBreakerConfig) (cb : CircuitBreakerState)
    (now : Nat) : CircuitBreakerState :=
  { state := .«open»
    failureCount := cb.failureCount + 1
    lastFailureTime := some now
    nextAttemptTime := some (now + cfg.resetTimeoutMs) }

/-- `shouldAttemptRequest`: the circuit-breaker gate.  Returns the gate
verdict together with the (possibly mutated) breaker state, since the open
branch assigns `state = 'half-open'` in place.  In the source the open
branch compares `now >= nextAttemptTime!`; when `nextAttemptTime` is
`undefined`, the JS comparison is false, which the `none` branch mirrors. -/
def shouldAttemptRequest (cb : CircuitBreakerState) (now : Nat) :
    Bool × CircuitBreakerState :=
  match cb.state with
  | .closed => (true, cb)
  | .«open» =>
    match cb.nextAttemptTime with
    | some t =>
      if now ≥ t then (true, { cb with state := .halfOpen }) else (false, cb)
    | none => (false, cb)
  | .halfOpen => (true, cb)

/-- `handleSuccess`: only a half-open breaker reacts to a success, resetting
to closed with `failureCount = 0` (and dropping the timing fields, since the
source assigns a fresh two-field object). -/
def handleSuccess (cb : CircuitBreakerState) : CircuitBreakerState :=
  if cb.state = .halfOpen then { state := .closed, failureCount := 0 } else cb

/-- `handleFailure`: increments `failureCount`; when the incremented count
reaches `failureThreshold`, opens the breaker. -/
def handleFailure (cfg : CircuitBreakerConfig) (cb : CircuitBreakerState)
    (now : Nat) : CircuitBreakerState :=
  let cb1 := { cb with failureCount := cb.failureCount + 1 }
  if cb1.failureCount ≥ cfg.failureThreshold then openCircuitBreaker cfg cb1 now
  else cb1

/-- `queueEvent`: when the queue already holds `maxQueueSize` (or more)
events, `shift()` removes the oldest before `push(event)` appends. -/
def queueEvent (maxQueueSize : Nat) (q : List (TelemetryEvent α))
    (event : TelemetryEvent α) : List (TelemetryEvent α) :=
  (if q.length ≥ maxQueueSize then q.tail else q) ++ [event]

/-- `sendEvent`: dispatch on the event type.  `metric` and `log` call the
current provider (outcome supplied by the oracle `r`); the `trace` case is
an empty switch branch in the source, so it always succeeds. -/
def sendEvent (event : TelemetryEvent α) (r : Except String Unit) :
    Except String Unit :=
  match event.type with
  | .metric => r
  | .log => r
  | .trace => .ok ()

/-- Printed name of an event type, used in the retry-timer key. -/
def eventTypeName : EventType → String
  | .metric => "metric"
  | .trace => "trace"
  | .log => "log"

/-- `retryEvent`: computes `retryCount = (event.retryCount || 0) + 1`; if it
exceeds `maxAttempts` the event is dropped (no timer armed); otherwise a
timer with delay `initialDelayMs * backoffMultiplier^(retryCount-1)` is
armed under key `` `${type}-${timestamp}-${retryCount}` ``, carrying the
event with its updated counter (the callback assigns
`event.retryCount = retryCount` before re-entering `processEvent`). -/
def retryEvent (retry : RetryConfig) (st : CoreState α)
    (event : TelemetryEvent α) : CoreState α :=
  let retryCount := event.retryCount.getD 0 + 1
  if retryCount > retry.maxAttempts then st
  else
    let delay := retry.initialDelayMs * retry.backoffMultiplier ^ (retryCount - 1)
    let eventKey :=
      eventTypeName event.type ++ "-" ++ toString event.timestamp ++ "-"
        ++ toString retryCount
    { st with
        retryTimeouts :=
          st.retryTimeouts ++ [(eventKey, delay, { event with retryCount := some retryCount })] }

/-- Loop body of `processQueuedEvents`: each drained event is sent; drain
failures go to `retryEvent` (the event is rescheduled, not re-queued).  The
oracle `drain i` is the provider outcome for the i-th drained event. -/
def drainEvents (retry : RetryConfig) (st : CoreState α)
    (events : List (TelemetryEvent α)) (drain : Nat → Except String Unit)
    (i : Nat) : CoreState α :=
  match events with
  | [] => st
  | e :: rest =>
    let st1 :=
      match sendEvent e (drain i) with
      | .ok _ => st
      | .error _ => retryEvent retry st e
    drainEvents retry st1 rest drain (i + 1)

/-- `processQueuedEvents`: snapshots the queue, empties it, then drains the
snapshot in FIFO order. -/
def processQueuedEvents (retry : RetryConfig) (st : CoreState α)
    (drain : Nat → Except String Unit) : CoreState α :=
  if st.eventQueue.length = 0 then st
  else
    let events := st.eventQueue
    drainEvents retry { st with eventQueue := [] } events drain 0

/-- Provider-call outcomes consumed along the fallback-switching path:
the fallback's `initialize`, the single resend of the failed event after a
successful switch, and one outcome per drained queued event. -/
structure SendOutcomes where
  fallbackInitResult : Except String Unit
  resendResult : Except String Unit
  drain : Nat → Except String Unit

/-- `switchToFallback`: points `currentProvider` at the fallback and
initializes it.  On success the breaker is reset to closed/0 and the queue
is drained.  On failure the breaker is opened and
`Error('Both primary and fallback providers failed to initialize')` is
thrown; the state mutations made before the throw persist (`this` is
mutated in place), so the result carries the state in both cases. -/
def switchToFallback (cbCfg : CircuitBreakerConfig) (retry : RetryConfig)
    (st : CoreState α) (now : Nat) (o : SendOutcomes) :
    CoreState α × Except String Unit :=
  let st1 := { st with currentProvider := .fallback }
  match o.fallbackInitResult with
  | .ok _ =>
    let st2 := { st1 with circuitBreakerState := { state := .closed, failureCount := 0 } }
    (processQueuedEvents retry st2 o.drain, .ok ())
  | .error _ =>
    ({ st1 with circuitBreakerState := openCircuitBreaker cbCfg st1.circuitBreakerState now },
      .error "Both primary and fallback providers failed to initialize")

/-- `handleProviderError`: if the primary is current, try an immediate
fallback switch plus a single resend of the failed event; any error in that
block is caught, falling through to `retryEvent`.  If the fallback is
already current, go straight to `retryEvent`.  Never throws. -/
def handleProviderError (cbCfg : CircuitBreakerConfig) (retry : RetryConfig)
    (st : CoreState α) (event : TelemetryEvent α) (now : Nat)
    (o : SendOutcomes) : CoreState α :=
  if st.currentProvider = .primary then
    match switchToFallback cbCfg retry st now o with
    | (st1, .ok _) =>
      match sendEvent event o.resendResult with
      | .ok _ => st1
      | .error _ => retryEvent retry st1 event
    | (st1, .error _) => retryEvent retry st1 event
  else retryEvent retry st event

/-- `processEvent`: gate check; blocked events are queued and the call
returns normally.  Otherwise the event is sent: success goes to
`handleSuccess`, failure to `handleFailure` then `handleProviderError`.
The catch block does not rethrow, so the result's `Except` component is
always `.ok` — `recordMetric`/`recordLog` never surface delivery errors. -/
def processEvent (cbCfg : CircuitBreakerConfig) (retry : RetryConfig)
    (maxQueueSize : Nat) (st : CoreState α) (event : TelemetryEvent α)
    (now : Nat) (sendResult : Except String Unit) (o : SendOutcomes) :
    CoreState α × Except String Unit :=
  match shouldAttemptRequest st.circuitBreakerState now with
  | (false, cb1) =>
    ({ st with
        circuitBreakerState := cb1
        eventQueue := queueEvent maxQueueSize st.eventQueue event }, .ok ())
  | (true, cb1) =>
    match sendEvent event sendResult with
    | .ok _ => ({ st with circuitBreakerState := handleSuccess cb1 }, .ok ())
    | .error _ =>
      let st1 := { st with circuitBreakerState := handleFailure cbCfg cb1 now }
      (handleProviderError cbCfg retry st1 event now o, .ok ())

/-- `recordMetric`: sanitize, wrap in a `metric` envelope stamped with
`Date.now()`, bump `metricsCount`, and hand to `processEvent`. -/
def recordMetric (cbCfg : CircuitBreakerConfig) (retry : RetryConfig)
    (maxQueueSize : Nat) (sanitize : α → α) (st : CoreState α) (metric : α)
    (now : Nat) (sendResult : Except String Unit) (o : SendOutcomes) :
    CoreState α × Except String Unit :=
  let event : TelemetryEvent α :=
    { type := .metric, data := sanitize metric, timestamp := now }
  processEvent cbCfg retry maxQueueSize
    { st with metricsCount := st.metricsCount + 1 } event now sendResult o

/-- `recordLog`: sanitize, wrap in a `log` envelope, hand to `processEvent`. -/
def recordLog (cbCfg : CircuitBreakerConfig) (retry : RetryConfig)
    (maxQueueSize : Nat) (sanitize : α → α) (st : CoreState α) (log : α)
    (now : Nat) (sendResult : Except String Unit) (o : SendOutcomes) :
    CoreState α × Except String Unit :=
  let event : TelemetryEvent α :=
    { type := .log, data := sanitize log, timestamp := now }
  processEvent cbCfg retry maxQueueSize st event now sendResult o

/-- `startTrace`: sanitize; if the gate blocks, queue the trace envelope and
return the synthetic id `'queued-' + Date.now()`.  Otherwise call the
provider's `startTrace` (outcome `startResult`): success returns the
backend span id via `handleSuccess`; failure runs `handleFailure` and
`handleProviderError` and then rethrows the provider error (`throw error`),
so the `Except` component is `.error` on that path. -/
def startTrace (cbCfg : CircuitBreakerConfig) (retry : RetryConfig)
    (maxQueueSize : Nat) (sanitize : α → α) (st : CoreState α) (trace : α)
    (now : Nat) (startResult : Except String String) (o : SendOutcomes) :
    CoreState α × Except String String :=
  let sanitizedTrace := sanitize trace
  match shouldAttemptRequest st.circuitBreakerState now with
  | (false, cb1) =>
    ({ st with
        circuitBreakerState := cb1
        eventQueue :=
          queueEvent maxQueueSize st.eventQueue
            { type := .trace, data := sanitizedTrace, timestamp := now } },
      .ok ("queued-" ++ toString now))
  | (true, cb1) =>
    match startResult with
    | .ok spanId => ({ st with circuitBreakerState := handleSuccess cb1 }, .ok spanId)
    | .error e =>
      let st1 := { st with circuitBreakerState := handleFailure cbCfg cb1 now }
      (handleProviderError cbCfg retry st1
        { type := .trace, data := sanitizedTrace, timestamp := now } now o,
        .error e)

/-- `endTrace`: if the gate blocks it returns at once (nothing queued);
otherwise the provider's `endTrace` outcome drives `handleSuccess` /
`handleFailure`, and a failure is only logged — never rethrown. -/
def endTrace (cbCfg : CircuitBreakerConfig) (st : CoreState α) (now : Nat)
    (endResult : Except String Unit) : CoreState α × Except String Unit :=
  match shouldAttemptRequest st.circuitBreakerState now with
  | (false, cb1) => ({ st with circuitBreakerState := cb1 }, .ok ())
  | (true, cb1) =>
    match endResult with
    | .ok _ => ({ st with circuitBreakerState := handleSuccess cb1 }, .ok ())
    | .error _ =>
      ({ st with circuitBreakerState := handleFailure cbCfg cb1 now }, .ok ())

/-- `initialize`: no-op when already initialized.  Tries the current
provider's `initialize` (outcome `primaryInitResult`): on success sets
`isInitialized` and drains the queue; on failure falls back via
`switchToFallback`, whose thrown both-providers-failed error propagates to
the caller (it is invoked from the catch block, outside any try). -/
def initializeCore (cbCfg : CircuitBreakerConfig) (retry : RetryConfig)
    (st : CoreState α) (now : Nat) (primaryInitResult : Except String Unit)
    (o : SendOutcomes) : CoreState α × Except String Unit :=
  if st.isInitialized then (st, .ok ())
  else
    match primaryInitResult with
    | .ok _ =>
      let st1 := { st with isInitialized := true }
      (processQueuedEvents retry st1 o.drain, .ok ())
    | .error _ => switchToFallback cbCfg retry st now o

/-- Printed name of a breaker state, as it appears in the health snapshot. -/
def cbStateName : CBStateTag → String
  | .closed => "closed"
  | .«open» => "open"
  | .halfOpen => "half-open"

/-- The record returned by `getHealthStatus`. -/
structure HealthStatus where
  healthy : Bool
  provider : String
  queueSize : Nat
  circuitBreakerState : String
  deriving DecidableEq, Repr

/-- `getHealthStatus`: derived read-only snapshot.  `providerHealthy` is the
current provider's `isHealthy()` answer. -/
def getHealthStatus (st : CoreState α) (providerHealthy : Bool) : HealthStatus :=
  { healthy := st.isInitialized && providerHealthy
    provider := if st.currentProvider = .primary then "primary" else "fallback"
    queueSize := st.eventQueue.length
    circuitBreakerState := cbStateName st.circuitBreakerState.state }

/-- `sanitizeData`, generic over the payload type: disabled means identity;
otherwise `JSON.stringify` (here `stringifyFn`), then each PII pattern's
`replace(pattern, '[REDACTED]')` in order (each pattern abstracted as a
`String → String` rewriting function), then `JSON.parse` (`parseFn`, partial);
a parse failure returns the original payload instead of throwing. -/
def sanitizeData (enabled : Bool) (stringifyFn : α → String)
    (piiPatterns : List (String → String)) (parseFn : String → Option α)
    (data : α) : α :=
  if !enabled then data
  else
    let serialized := stringifyFn data
    let sanitized := piiPatterns.foldl (fun s p => p s) serialized
    match parseFn sanitized with
    | some v => v
    | none => data

/-- The configuration fields the orchestrator reads, before normalization.
`serviceName`/`serviceVersion` are `Option` to model absent fields; the TS
check `!config.serviceName` is also true for the empty string. -/
structure TelemetryConfigIn where
  serviceName : Option String
  serviceVersion : Option String
  batching : Option BatchingConfig := none
  circuitBreaker : Option CircuitBreakerConfig := none
  retry : Option RetryConfig := none
  debug : Option Bool := none
  sanitizationEnabled : Option Bool := none
  deriving DecidableEq, Repr

/-- The same fields after `validateAndNormalizeConfig` filled defaults. -/
structure TelemetryConfig where
  serviceName : String
  serviceVersion : String
  batching : BatchingConfig
  circuitBreaker : CircuitBreakerConfig
  retry : RetryConfig
  debug : Bool
  sanitizationEnabled : Bool
  deriving DecidableEq, Repr

/-- JS falsiness of an optional string: `undefined` and `""` are falsy. -/
def falsyStr : Option String → Bool
  | none => true
  | some s => s.isEmpty

/-- `validateAndNormalizeConfig`: throws when `serviceName` or
`serviceVersion` is missing (checked in that order), otherwise fills the
documented defaults: queue 1000/5000, breaker 5/60000, retry 3/2/1000,
debug false, sanitization enabled. -/
def validateAndNormalizeConfig (c : TelemetryConfigIn) :
    Except String TelemetryConfig :=
  if falsyStr c.serviceName then
    .error "serviceName is required in telemetry configuration"
  else if falsyStr c.serviceVersion then
    .error "serviceVersion is required in telemetry configuration"
  else
    .ok
      { serviceName := c.serviceName.getD ""
        serviceVersion := c.serviceVersion.getD ""
        batching := c.batching.getD { maxQueueSize := 1000, scheduledDelayMillis := 5000 }
        circuitBreaker := c.circuitBreaker.getD { failureThreshold := 5, resetTimeoutMs := 60000 }
        retry := c.retry.getD { maxAttempts := 3, backoffMultiplier := 2, initialDelayMs := 1000 }
        debug := c.debug.getD false
        sanitizationEnabled := c.sanitizationEnabled.getD true }

/-- The `TelemetryCore` constructor: validate-and-normalize runs first and
its throw propagates, so providers are instantiated (`initializeProviders`,
which sets `currentProvider = primaryProvider`) and the breaker is created
(`initializeCircuitBreaker`) only when validation succeeded. -/
def mkTelemetryCore (α : Type) (c : TelemetryConfigIn) :
    Except String (TelemetryConfig × CoreState α) :=
  match validateAndNormalizeConfig c with
  | .error e => .error e
  | .ok cfg =>
    .ok (cfg,
      { circuitBreakerState := initializeCircuitBreaker
        eventQueue := []
        currentProvider := .primary
        isInitialized := false
        retryTimeouts := []
        metricsCount := 0 })

/-- Firing an armed retry timer: the source callback deletes the timer's
key from `retryTimeouts`, stamps the event with its new `retryCount` (the
armed timer already carries the stamped event here), and re-enters
`processEvent`. -/
def fireRetryTimer (cbCfg : CircuitBreakerConfig) (retry : RetryConfig)
    (maxQueueSize : Nat) (st : CoreState α)
    (timer : String × Nat × TelemetryEvent α) (now : Nat)
    (sendResult : Except String Unit) (o : SendOutcomes) :
    CoreState α × Except String Unit :=
  let st1 :=
    { st with retryTimeouts := st.retryTimeouts.filter (fun kv => kv.1 != timer.1) }
  processEvent cbCfg retry maxQueueSize st1 timer.2.2 now sendResult o

/-- Outcome of one delivery attempt as reported to the breaker: a success
feeds `handleSuccess`, a failure at time `now` feeds `handleFailure`. -/
inductive DeliveryOutcome
  | success
  | failure (now : Nat)
  deriving DecidableEq, Repr

/-- Report one delivery outcome to the breaker. -/
def applyOutcome (cfg : CircuitBreakerConfig) (cb : CircuitBreakerState) :
    DeliveryOutcome → CircuitBreakerState
  | .success => handleSuccess cb
  | .failure now => handleFailure cfg cb now

/-- Report a sequence of delivery outcomes to the breaker, oldest first. -/
def runOutcomes (cfg : CircuitBreakerConfig) (cb : CircuitBreakerState)
    (ops : List DeliveryOutcome) : CircuitBreakerState :=
  ops.foldl (applyOutcome cfg) cb

/-- Number of failures in a sequence of delivery outcomes. -/
def countFailures : List DeliveryOutcome → Nat
  | [] => 0
  | .success :: rest => countFailures rest
  | .failure _ :: rest => countFailures rest + 1

/-- A concrete metric envelope used in witnesses: payload and timestamp `n`. -/
def exampleEvent (n : Nat) : TelemetryEvent Nat :=
  { type := .metric, data := n, timestamp := n }

/-- The documented default breaker configuration (threshold 5, 60 s). -/
def cfgCB5 : CircuitBreakerConfig :=
  { failureThreshold := 5, resetTimeoutMs := 60000 }

/-- The documented default retry policy (3 attempts, ×2 backoff, 1 s). -/
def retryDefault : RetryConfig :=
  { maxAttempts := 3, backoffMultiplier := 2, initialDelayMs := 1000 }

/-- Provider oracle in which every provider call succeeds. -/
def oAllOk : SendOutcomes :=
  { fallbackInitResult := .ok (), resendResult := .ok (), drain := fun _ => .ok () }

/-- Provider oracle in which the fallback's `initialize` also fails. -/
def oBothFail : SendOutcomes :=
  { fallbackInitResult := .error "fallback init failed", resendResult := .ok ()
    drain := fun _ => .ok () }

/-- Core state as produced by the constructor (closed breaker, empty queue,
primary current). -/
def freshCoreState : CoreState Nat :=
  { circuitBreakerState := initializeCircuitBreaker
    eventQueue := []
    currentProvider := .primary
    isInitialized := false
    retryTimeouts := []
    metricsCount := 0 }

/-- An open breaker whose cool-down runs until t = 60000. -/
def cbOpenExample : CircuitBreakerState :=
  { state := .«open», failureCount := 6, lastFailureTime := some 0
    nextAttemptTime := some 60000 }

/-- Core state whose breaker is open with the cool-down still running at
any `now < 60000`, so the gate blocks. -/
def blockedCoreState : CoreState Nat :=
  { freshCoreState with circuitBreakerState := cbOpenExample }

/-- A half-open breaker whose failure count is already above the default
threshold, as produced by the usual threshold-driven opening. -/
def cbHalfOpen6 : CircuitBreakerState :=
  { state := .halfOpen, failureCount := 6, lastFailureTime := some 0
    nextAttemptTime := some 60000 }

/-- A half-open breaker with failure count 1, reachable when the breaker
was opened by a failed fallback switch rather than by the threshold. -/
def cbHalfOpen1 : CircuitBreakerState :=
  { state := .halfOpen, failureCount := 1, lastFailureTime := some 0
    nextAttemptTime := some 60000 }

/-! ## Helper lemmas -/

/-- One `queueEvent` keeps the queue within the bound (bound ≥ 1). -/
theorem queueEvent_length_le (maxQueueSize : Nat)
    (q : List (TelemetryEvent α)) (event : TelemetryEvent α)
    (hmax : 1 ≤ maxQueueSize) (hq : q.length ≤ maxQueueSize) :
    (queueEvent maxQueueSize q event).length ≤ maxQueueSize := by
  unfold queueEvent
  split
  · simp only [List.length_append, List.length_tail, List.length_cons,
      List.length_nil]
    omega
  · simp only [List.length_append, List.length_cons, List.length_nil]
    omega

/-- Folding `queueEvent` over any event list keeps the queue within the
bound, from any start below the bound. -/
theorem queueEvent_foldl_length_le (maxQueueSize : Nat)
    (hmax : 1 ≤ maxQueueSize) (events : List (TelemetryEvent α)) :
    ∀ q : List (TelemetryEvent α), q.length ≤ maxQueueSize →
      (events.foldl (queueEvent maxQueueSize) q).length ≤ maxQueueSize := by
  induction events with
  | nil => intro q hq; simpa using hq
  | cons e rest ih =>
    intro q hq
    simp only [List.foldl_cons]
    exact ih _ (queueEvent_length_le maxQueueSize q e hmax hq)

/-! ## C2 — circuit-breaker gate while open -/

/-- C2 counterexample: once the cool-down of `cbOpenExample` has elapsed at
time 60000, a first gate check passes (moving the breaker to half-open),
and a second gate check in the same cool-down window — before any probe
outcome resolves the half-open state — passes as well, so the gate does NOT
return true exactly once per cool-down window. -/
theorem gate_second_check_passes_cex :
    (shouldAttemptRequest cbOpenExample 60000).1 = true ∧
    (shouldAttemptRequest (shouldAttemptRequest cbOpenExample 60000).2 60000).1
      = true := by
  decide

/-- C2 amended: while `open`, `shouldAttemptRequest` returns false as long
as `now < nextAttemptTime`; once `now ≥ nextAttemptTime` the state becomes
`half-open` and the gate returns true; however, while the breaker remains
`half-open` every further gate check also returns true — the code does not
limit the half-open window to a single probe. -/
theorem gate_open_halfopen_behavior (cb : CircuitBreakerState) (t now : Nat)
    (hopen : cb.state = .«open») (ht : cb.nextAttemptTime = some t) :
    (now < t → shouldAttemptRequest cb now = (false, cb)) ∧
    (t ≤ now →
      shouldAttemptRequest cb now = (true, { cb with state := .halfOpen })) ∧
    (∀ (cb2 : CircuitBreakerState) (m : Nat), cb2.state = .halfOpen →
      (shouldAttemptRequest cb2 m).1 = true) := by
  refine ⟨?_, ?_, ?_⟩
  · intro h
    simp [shouldAttemptRequest, hopen, ht, Nat.not_le.mpr h]
  · intro h
    simp [shouldAttemptRequest, hopen, ht, h]
  · intro cb2 m h2
    simp [shouldAttemptRequest, h2]

/-- Witness for C2's amended theorem at the concrete open breaker
`cbOpenExample` (cool-down ends at 60000), checked just before and exactly
at the cool-down boundary. -/
theorem gate_open_halfopen_behavior_witness :
    shouldAttemptRequest cbOpenExample 59999 = (false, cbOpenExample) ∧
    shouldAttemptRequest cbOpenExample 60000
      = (true, { cbOpenExample with state := .halfOpen }) :=
  ⟨(gate_open_halfopen_behavior cbOpenExample 60000 59999 rfl rfl).1
      (by decide),
   (gate_open_halfopen_behavior cbOpenExample 60000 60000 rfl rfl).2.1
      (by decide)⟩

/-! ## C3 — bounded FIFO queue with oldest-entry eviction -/

/-- C3 counterexample: with configured `maxQueueSize = 0`, enqueuing one
event onto the empty queue exceeds the bound: `shift()` on the empty queue
is a no-op and `push` then yields length 1 > 0 (the length stays pinned at
1, not 0, forever after), so "the queue length never exceeds the configured
maxQueueSize" fails at the bound 0. -/
theorem queue_bound_zero_exceeded_cex :
    (queueEvent 0 ([] : List (TelemetryEvent Nat)) (exampleEvent 1)).length = 1 ∧
    ¬ (queueEvent 0 ([] : List (TelemetryEvent Nat)) (exampleEvent 1)).length ≤ 0 := by
  decide

/-- C3 amended: for every sequence of `queueEvent` operations starting from
the empty queue the length never exceeds `maxQueueSize` provided the
configured bound is positive, and at capacity the oldest entry is evicted
FIFO-style: with max = 3, inserting events 1,2,3,4 leaves the queue holding
2,3,4. -/
theorem queue_bounded_fifo_eviction :
    (∀ maxQueueSize : Nat, 1 ≤ maxQueueSize →
      ∀ events : List (TelemetryEvent Nat),
        (events.foldl (queueEvent maxQueueSize) []).length ≤ maxQueueSize) ∧
    [exampleEvent 1, exampleEvent 2, exampleEvent 3, exampleEvent 4].foldl
        (queueEvent 3) []
      = [exampleEvent 2, exampleEvent 3, exampleEvent 4] := by
  constructor
  · intro m hm events
    exact queueEvent_foldl_length_le m hm events [] (by simp)
  · decide

/-- Witness for C3 at bound 3 with a concrete two-event sequence, plus the
concrete max=3 eviction scenario. -/
theorem queue_bounded_fifo_eviction_witness :
    ([exampleEvent 1, exampleEvent 2].foldl (queueEvent 3) []).length ≤ 3 ∧
    [exampleEvent 1, exampleEvent 2, exampleEvent 3, exampleEvent 4].foldl
        (queueEvent 3) []
      = [exampleEvent 2, exampleEvent 3, exampleEvent 4] :=
  ⟨queue_bounded_fifo_eviction.1 3 (by decide) [exampleEvent 1, exampleEvent 2],
   queue_bounded_fifo_eviction.2⟩

/-! ## C7 — half-open probe outcomes -/

/-- C7 counterexample: a half-open breaker with failure count 1 under the
default threshold 5 (reachable: a failed fallback switch opens the breaker
with count 1, and the cool-down expiry moves it to half-open): a probe
failure at time 70000 leaves the breaker half-open with count 2 — it does
not return to `open` with a fresh cool-down timer as the claim states. -/
theorem halfopen_failure_stays_halfopen_cex :
    handleFailure cfgCB5 cbHalfOpen1 70000
      = { state := .halfOpen, failureCount := 2, lastFailureTime := some 0,
          nextAttemptTime := some 60000 } ∧
    (handleFailure cfgCB5 cbHalfOpen1 70000).state ≠ .«open» := by
  decide

/-- C7 amended: a probe success in half-open resets the breaker to closed
with failure count 0; a probe failure increments the failure count and
returns the breaker to `open` — with `nextAttemptTime = now + resetTimeoutMs`
and a second increment from `openCircuitBreaker` — only when the
incremented count reaches `failureThreshold`; below the threshold the
breaker stays half-open. -/
theorem halfopen_probe_transitions (cfg : CircuitBreakerConfig)
    (cb : CircuitBreakerState) (now : Nat) (h : cb.state = .halfOpen) :
    handleSuccess cb = { state := .closed, failureCount := 0 } ∧
    (cfg.failureThreshold ≤ cb.failureCount + 1 →
      handleFailure cfg cb now =
        { state := .«open», failureCount := cb.failureCount + 2,
          lastFailureTime := some now,
          nextAttemptTime := some (now + cfg.resetTimeoutMs) }) ∧
    (cb.failureCount + 1 < cfg.failureThreshold →
      handleFailure cfg cb now = { cb with failureCount := cb.failureCount + 1 }) := by
  refine ⟨?_, ?_, ?_⟩
  · simp [handleSuccess, h]
  · intro hge
    simp [handleFailure, openCircuitBreaker, hge]
  · intro hlt
    simp [handleFailure, openCircuitBreaker, Nat.not_le.mpr hlt]

/-- Witness for C7's amended theorem at the above-threshold half-open
breaker `cbHalfOpen6` (default threshold 5) at time 70000. -/
theorem halfopen_probe_transitions_witness :
    handleSuccess cbHalfOpen6 = { state := .closed, failureCount := 0 } ∧
    handleFailure cfgCB5 cbHalfOpen6 70000 =
      { state := .«open», failureCount := cbHalfOpen6.failureCount + 2,
        lastFailureTime := some 70000,
        nextAttemptTime := some (70000 + cfgCB5.resetTimeoutMs) } :=
  ⟨(halfopen_probe_transitions cfgCB5 cbHalfOpen6 70000 rfl).1,
   (halfopen_probe_transitions cfgCB5 cbHalfOpen6 70000 rfl).2.1 (by decide)⟩

/-! ## C10 — failure counting across interleaved closed-state successes -/

/-- Folding delivery outcomes preserves the breaker invariant: while closed
the failure count equals the number of failures seen (and is below the
threshold); once open it dominates it.  `f` is the failure count already
accumulated before `ops`. -/
theorem breaker_fold_invariant (cfg : CircuitBreakerConfig) :
    ∀ (ops : List DeliveryOutcome) (cb : CircuitBreakerState) (f : Nat),
      ((cb.state = .closed ∧ cb.failureCount = f ∧ f < cfg.failureThreshold) ∨
        (cb.state = .«open» ∧ f ≤ cb.failureCount)) →
      (((runOutcomes cfg cb ops).state = .closed ∧
          (runOutcomes cfg cb ops).failureCount = f + countFailures ops ∧
          f + countFailures ops < cfg.failureThreshold) ∨
        ((runOutcomes cfg cb ops).state = .«open» ∧
          f + countFailures ops ≤ (runOutcomes cfg cb ops).failureCount)) := by
  intro ops
  induction ops with
  | nil =>
    intro cb f h
    simpa [runOutcomes, countFailures] using h
  | cons op rest ih =>
    intro cb f h
    cases op with
    | success =>
      have hs : handleSuccess cb = cb := by
        rcases h with ⟨h1, _⟩ | ⟨h1, _⟩ <;> simp [handleSuccess, h1]
      have hrec := ih cb f h
      simpa [runOutcomes, countFailures, applyOutcome, hs] using hrec
    | failure nowt =>
      have hinv :
          ((handleFailure cfg cb nowt).state = .closed ∧
              (handleFailure cfg cb nowt).failureCount = f + 1 ∧
              f + 1 < cfg.failureThreshold) ∨
            ((handleFailure cfg cb nowt).state = .«open» ∧
              f + 1 ≤ (handleFailure cfg cb nowt).failureCount) := by
        by_cases hc : cb.failureCount + 1 ≥ cfg.failureThreshold
        · right
          refine ⟨by simp [handleFailure, openCircuitBreaker, hc], ?_⟩
          simp only [handleFailure, openCircuitBreaker, hc, if_pos]
          rcases h with ⟨_, h2, _⟩ | ⟨_, h2⟩ <;> omega
        · rcases h with ⟨h1, h2, _⟩ | ⟨h1, h2⟩
          · left
            refine ⟨by simp [handleFailure, hc, h1], ?_, ?_⟩
            · simp [handleFailure, hc]
              omega
            · omega
          · right
            refine ⟨by simp [handleFailure, hc, h1], ?_⟩
            simp [handleFailure, hc]
            omega
      have hrec := ih (handleFailure cfg cb nowt) (f + 1) hinv
      simp only [runOutcomes, List.foldl_cons, applyOutcome] at hrec ⊢
      simp only [countFailures] at hrec ⊢
      rcases hrec with ⟨a, b, c⟩ | ⟨a, b⟩
      · left
        exact ⟨a, by omega, by omega⟩
      · right
        exact ⟨a, by omega⟩

/-- C10: a successful delivery while the breaker is closed leaves the
breaker (its failure count included) unchanged; consequently, starting from
a fresh breaker, any delivery sequence containing at least
`failureThreshold` failures — however many closed-state successes are
interleaved between them — leaves the breaker open (threshold ≥ 1). -/
theorem closed_success_count_and_interleaved_failures_open :
    (∀ cb : CircuitBreakerState, cb.state = .closed → handleSuccess cb = cb) ∧
    (∀ (cfg : CircuitBreakerConfig) (ops : List DeliveryOutcome),
      1 ≤ cfg.failureThreshold → cfg.failureThreshold ≤ countFailures ops →
      (runOutcomes cfg initializeCircuitBreaker ops).state = .«open») := by
  constructor
  · intro cb h
    simp [handleSuccess, h]
  · intro cfg ops h1 h2
    have hstart :
        (initializeCircuitBreaker.state = .closed ∧
            initializeCircuitBreaker.failureCount = 0 ∧
            0 < cfg.failureThreshold) ∨
          (initializeCircuitBreaker.state = .«open» ∧
            0 ≤ initializeCircuitBreaker.failureCount) :=
      Or.inl ⟨rfl, rfl, by omega⟩
    rcases breaker_fold_invariant cfg ops initializeCircuitBreaker 0 hstart with
      ⟨_, _, hlt⟩ | ⟨hopen, _⟩
    · omega
    · exact hopen

/-- Witness for C10: a closed-state success is a no-op on the fresh breaker,
and with threshold 2 the non-consecutive failure pattern
failure-success-failure opens the breaker. -/
theorem closed_success_count_and_interleaved_failures_open_witness :
    handleSuccess initializeCircuitBreaker = initializeCircuitBreaker ∧
    (runOutcomes { failureThreshold := 2, resetTimeoutMs := 60000 }
        initializeCircuitBreaker
        [.failure 0, .success, .failure 5]).state = .«open» :=
  ⟨closed_success_count_and_interleaved_failures_open.1
      initializeCircuitBreaker rfl,
   closed_success_count_and_interleaved_failures_open.2
      { failureThreshold := 2, resetTimeoutMs := 60000 }
      [.failure 0, .success, .failure 5] (by decide) (by decide)⟩

/-! ## C5 — fail-open sanitizer -/

/-- C5: `sanitizeData` is total (never throws).  Disabled sanitization
returns the payload unchanged; enabled sanitization serializes the payload,
applies each redaction pattern in order (the `foldl`), and parses back; a
parse failure returns the original unsanitized payload (worst case a
no-op), a parse success returns the reparsed value. -/
theorem sanitize_fail_open (enabled : Bool) (stringifyFn : α → String)
    (piiPatterns : List (String → String)) (parseFn : String → Option α)
    (data : α) :
    (enabled = false →
      sanitizeData enabled stringifyFn piiPatterns parseFn data = data) ∧
    (parseFn (piiPatterns.foldl (fun s p => p s) (stringifyFn data)) = none →
      sanitizeData enabled stringifyFn piiPatterns parseFn data = data) ∧
    (∀ v, parseFn (piiPatterns.foldl (fun s p => p s) (stringifyFn data)) = some v →
      sanitizeData true stringifyFn piiPatterns parseFn data = v) := by
  refine ⟨?_, ?_, ?_⟩
  · intro h
    simp [sanitizeData, h]
  · intro h
    cases enabled <;> simp [sanitizeData, h]
  · intro v h
    simp [sanitizeData, h]

/-- Witness for C5 on a concrete `Nat` payload: disabled is the identity; a
failing parse returns the original payload 7; a successful parse returns
the reparsed value 9. -/
theorem sanitize_fail_open_witness :
    sanitizeData false toString [fun s => s] (fun _ => some 9) 7 = 7 ∧
    sanitizeData true toString [fun s => s] (fun _ => none) 7 = 7 ∧
    sanitizeData true toString [fun s => s] (fun _ => some 9) 7 = 9 :=
  ⟨(sanitize_fail_open false toString [fun s => s] (fun _ => some 9) 7).1 rfl,
   (sanitize_fail_open true toString [fun s => s] (fun _ => none) 7).2.1 rfl,
   (sanitize_fail_open true toString [fun s => s] (fun _ => some 9) 7).2.2 9 rfl⟩

/-! ## C6 — retry scheduling with exponential backoff -/

/-- C6: `retryEvent` computes the incremented attempt counter
`(retryCount || 0) + 1`; if it exceeds `maxAttempts` the event is dropped —
the state is unchanged and no timer is armed, so the event is never resent;
otherwise a timer with delay
`initialDelayMs * backoffMultiplier ^ (attempts - 1)` is armed, carrying
the event stamped with the new counter; and firing an armed timer deletes
its key and re-enters `processEvent` with the carried event. -/
theorem retry_schedule_or_drop (retry : RetryConfig) (st : CoreState α)
    (event : TelemetryEvent α) :
    (retry.maxAttempts < event.retryCount.getD 0 + 1 →
      retryEvent retry st event = st) ∧
    (event.retryCount.getD 0 + 1 ≤ retry.maxAttempts →
      retryEvent retry st event =
        { st with retryTimeouts := st.retryTimeouts ++
            [(eventTypeName event.type ++ "-" ++ toString event.timestamp
                ++ "-" ++ toString (event.retryCount.getD 0 + 1),
              retry.initialDelayMs *
                retry.backoffMultiplier ^ (event.retryCount.getD 0 + 1 - 1),
              { event with retryCount := some (event.retryCount.getD 0 + 1) })] }) ∧
    (∀ (cbCfg : CircuitBreakerConfig) (maxQueueSize : Nat)
        (timer : String × Nat × TelemetryEvent α) (now : Nat)
        (sendResult : Except String Unit) (o : SendOutcomes),
      fireRetryTimer cbCfg retry maxQueueSize st timer now sendResult o =
        processEvent cbCfg retry maxQueueSize
          { st with retryTimeouts :=
              st.retryTimeouts.filter (fun kv => kv.1 != timer.1) }
          timer.2.2 now sendResult o) := by
  refine ⟨?_, ?_, fun _ _ _ _ _ _ => rfl⟩
  · intro h
    simp [retryEvent, h]
  · intro h
    simp [retryEvent, Nat.not_lt.mpr h]

/-- Witness for C6 under the default retry policy: a fresh event (no
counter) is armed with delay 1000·2⁰ = 1000 as attempt 1; an event already
at attempt 3 is dropped. -/
theorem retry_schedule_or_drop_witness :
    retryEvent retryDefault freshCoreState (exampleEvent 4) =
      { freshCoreState with retryTimeouts :=
          [("metric-4-1", 1000, { exampleEvent 4 with retryCount := some 1 })] } ∧
    retryEvent retryDefault freshCoreState
        { exampleEvent 4 with retryCount := some 3 }
      = freshCoreState := by
  constructor
  · have h :=
      (retry_schedule_or_drop retryDefault freshCoreState (exampleEvent 4)).2.1
        (by decide)
    simpa using h
  · exact
      (retry_schedule_or_drop retryDefault freshCoreState
          { exampleEvent 4 with retryCount := some 3 }).1 (by decide)

/-! ## C8 — construction-time validation -/

/-- C8: the constructor validates before anything else: a missing (or
empty — falsy in JS) `serviceName`, or, with the name present, a missing
`serviceVersion`, makes `mkTelemetryCore` return the corresponding
configuration error; the `Except` result means the error propagates to the
caller at once, with no provider/breaker state ever produced and no
retry. -/
theorem construction_requires_service_identity (c : TelemetryConfigIn) :
    (falsyStr c.serviceName = true →
      mkTelemetryCore Nat c =
        .error "serviceName is required in telemetry configuration") ∧
    (falsyStr c.serviceName = false → falsyStr c.serviceVersion = true →
      mkTelemetryCore Nat c =
        .error "serviceVersion is required in telemetry configuration") := by
  constructor
  · intro h
    simp [mkTelemetryCore, validateAndNormalizeConfig, h]
  · intro h1 h2
    simp [mkTelemetryCore, validateAndNormalizeConfig, h1, h2]

/-- Witness for C8 on a config missing `serviceName` and one missing
`serviceVersion`. -/
theorem construction_requires_service_identity_witness :
    mkTelemetryCore Nat { serviceName := none, serviceVersion := some "1.0.0" }
      = .error "serviceName is required in telemetry configuration" ∧
    mkTelemetryCore Nat { serviceName := some "svc", serviceVersion := none }
      = .error "serviceVersion is required in telemetry configuration" :=
  ⟨(construction_requires_service_identity
      { serviceName := none, serviceVersion := some "1.0.0" }).1 (by decide),
   (construction_requires_service_identity
      { serviceName := some "svc", serviceVersion := none }).2 (by decide) (by decide)⟩

/-! ## More helper lemmas: field preservation along the drain path -/

/-- `retryEvent` touches only `retryTimeouts`. -/
theorem retryEvent_preserves (retry : RetryConfig) (st : CoreState α)
    (event : TelemetryEvent α) :
    (retryEvent retry st event).circuitBreakerState = st.circuitBreakerState ∧
    (retryEvent retry st event).eventQueue = st.eventQueue ∧
    (retryEvent retry st event).currentProvider = st.currentProvider ∧
    (retryEvent retry st event).isInitialized = st.isInitialized := by
  by_cases h : event.retryCount.getD 0 + 1 > retry.maxAttempts
  · simp [retryEvent, h]
  · simp [retryEvent, h]

/-- The drain loop touches only `retryTimeouts`. -/
theorem drainEvents_preserves (retry : RetryConfig)
    (events : List (TelemetryEvent α)) (drain : Nat → Except String Unit) :
    ∀ (st : CoreState α) (i : Nat),
      (drainEvents retry st events drain i).circuitBreakerState
          = st.circuitBreakerState ∧
        (drainEvents retry st events drain i).eventQueue = st.eventQueue ∧
        (drainEvents retry st events drain i).currentProvider
          = st.currentProvider ∧
        (drainEvents retry st events drain i).isInitialized
          = st.isInitialized := by
  induction events with
  | nil =>
    intro st i
    simp [drainEvents]
  | cons e rest ih =>
    intro st i
    unfold drainEvents
    cases hse : sendEvent e (drain i) with
    | ok u =>
      simpa [hse] using ih st (i + 1)
    | error msg =>
      obtain ⟨r1, r2, r3, r4⟩ := retryEvent_preserves retry st e
      obtain ⟨d1, d2, d3, d4⟩ := ih (retryEvent retry st e) (i + 1)
      simp only [hse]
      exact ⟨d1.trans r1, d2.trans r2, d3.trans r3, d4.trans r4⟩

/-- `processQueuedEvents` leaves the breaker, the current provider and the
initialization flag alone and always ends with an empty queue (drained
failures are re-armed as retries, not re-queued). -/
theorem processQueuedEvents_fields (retry : RetryConfig) (st : CoreState α)
    (drain : Nat → Except String Unit) :
    (processQueuedEvents retry st drain).circuitBreakerState
        = st.circuitBreakerState ∧
      (processQueuedEvents retry st drain).eventQueue = [] ∧
      (processQueuedEvents retry st drain).currentProvider
        = st.currentProvider ∧
      (processQueuedEvents retry st drain).isInitialized
        = st.isInitialized := by
  unfold processQueuedEvents
  split
  · rename_i h
    refine ⟨rfl, ?_, rfl, rfl⟩
    exact List.length_eq_zero.mp h
  · obtain ⟨d1, d2, d3, d4⟩ :=
      drainEvents_preserves retry st.eventQueue drain
        { st with eventQueue := [] } 0
    exact ⟨d1, d2, d3, d4⟩

/-- `processEvent` never rethrows: its catch branch queues a retry or
switches provider but returns normally in every case. -/
theorem processEvent_ok (cbCfg : CircuitBreakerConfig) (retry : RetryConfig)
    (maxQueueSize : Nat) (st : CoreState α) (event : TelemetryEvent α)
    (now : Nat) (sendResult : Except String Unit) (o : SendOutcomes) :
    (processEvent cbCfg retry maxQueueSize st event now sendResult o).2
      = .ok () := by
  unfold processEvent
  split
  · rfl
  · split <;> rfl

/-! ## C9 — fallback switch on primary initialization failure -/

/-- C9: when the orchestrator is not yet initialized, the primary's
`initialize` rejects and the fallback's succeeds, `initialize` returns
normally with the current provider switched to the fallback, the breaker
reset to closed with failure count 0, the queued events drained (queue
empty afterwards), and `getHealthStatus` reporting the current backend as
"fallback". -/
theorem fallback_switch_on_primary_init_failure
    (cbCfg : CircuitBreakerConfig) (retry : RetryConfig) (st : CoreState α)
    (now : Nat) (e : String) (o : SendOutcomes) (providerHealthy : Bool)
    (hinit : st.isInitialized = false)
    (hfb : o.fallbackInitResult = .ok ()) :
    (initializeCore cbCfg retry st now (.error e) o).2 = .ok () ∧
    (initializeCore cbCfg retry st now (.error e) o).1.currentProvider
      = .fallback ∧
    (initializeCore cbCfg retry st now (.error e) o).1.circuitBreakerState
      = { state := .closed, failureCount := 0 } ∧
    (initializeCore cbCfg retry st now (.error e) o).1.eventQueue = [] ∧
    (getHealthStatus (initializeCore cbCfg retry st now (.error e) o).1
        providerHealthy).provider = "fallback" := by
  have key : initializeCore cbCfg retry st now (.error e) o
      = (processQueuedEvents retry
          { st with
              currentProvider := .fallback
              circuitBreakerState := { state := .closed, failureCount := 0 } }
          o.drain, .ok ()) := by
    unfold initializeCore switchToFallback
    rw [hfb, hinit]
    rfl
  rw [key]
  obtain ⟨p1, p2, p3, p4⟩ :=
    processQueuedEvents_fields retry
      { st with
          currentProvider := ProviderId.fallback
          circuitBreakerState :=
            { state := CBStateTag.closed, failureCount := 0 } }
      o.drain
  refine ⟨rfl, ?_, ?_, p2, ?_⟩
  · rw [p3]
  · rw [p1]
  · simp [getHealthStatus, p3]

/-- Witness for C9: fresh uninitialized core, primary init rejects, all
fallback-side calls succeed. -/
theorem fallback_switch_on_primary_init_failure_witness :
    (initializeCore cfgCB5 retryDefault freshCoreState 100
        (.error "primary down") oAllOk).2 = .ok () ∧
    (initializeCore cfgCB5 retryDefault freshCoreState 100
        (.error "primary down") oAllOk).1.currentProvider = .fallback ∧
    (initializeCore cfgCB5 retryDefault freshCoreState 100
        (.error "primary down") oAllOk).1.circuitBreakerState
      = { state := .closed, failureCount := 0 } ∧
    (initializeCore cfgCB5 retryDefault freshCoreState 100
        (.error "primary down") oAllOk).1.eventQueue = [] ∧
    (getHealthStatus
        (initializeCore cfgCB5 retryDefault freshCoreState 100
          (.error "primary down") oAllOk).1 true).provider = "fallback" :=
  fallback_switch_on_primary_init_failure cfgCB5 retryDefault freshCoreState
    100 "primary down" oAllOk true rfl rfl

/-! ## C1 — which calls can surface a delivery failure -/

/-- C1 counterexample: with the fresh closed breaker (gate passing), a
provider delivery failure inside `startTrace` is rethrown to the caller:
the call's result is `.error "send failed"`, so a delivery failure of the
current backend CAN cause an instrumentation call to throw, contradicting
the claim. -/
theorem startTrace_delivery_failure_throws_cex :
    (startTrace cfgCB5 retryDefault 1000 id freshCoreState 7 100
        (.error "send failed") oAllOk).2 = .error "send failed" := rfl

/-- C1 amended: `recordMetric`, `recordLog` and `endTrace` never throw for
delivery problems — their result is `.ok` for every provider outcome
(failures are absorbed by queueing, fallback switching and retry arming) —
and a both-providers-failed `initialize` propagates its error; but
`startTrace` rethrows the provider error whenever the gate passes and the
provider's `startTrace` fails, so the "never throws" guarantee does not
extend to `startTrace`'s delivery failures. -/
theorem api_delivery_failure_surface (cbCfg : CircuitBreakerConfig)
    (retry : RetryConfig) (maxQueueSize : Nat) :
    (∀ (sanitize : α → α) (st : CoreState α) (x : α) (now : Nat)
        (sendResult : Except String Unit) (o : SendOutcomes),
      (recordMetric cbCfg retry maxQueueSize sanitize st x now sendResult o).2
        = .ok ()) ∧
    (∀ (sanitize : α → α) (st : CoreState α) (x : α) (now : Nat)
        (sendResult : Except String Unit) (o : SendOutcomes),
      (recordLog cbCfg retry maxQueueSize sanitize st x now sendResult o).2
        = .ok ()) ∧
    (∀ (st : CoreState α) (now : Nat) (endResult : Except String Unit),
      (endTrace cbCfg st now endResult).2 = .ok ()) ∧
    (∀ (sanitize : α → α) (st : CoreState α) (x : α) (now : Nat) (e : String)
        (o : SendOutcomes),
      (shouldAttemptRequest st.circuitBreakerState now).1 = true →
      (startTrace cbCfg retry maxQueueSize sanitize st x now (.error e) o).2
        = .error e) ∧
    (∀ (st : CoreState α) (now : Nat) (e1 e2 : String) (o : SendOutcomes),
      st.isInitialized = false → o.fallbackInitResult = .error e2 →
      (initializeCore cbCfg retry st now (.error e1) o).2 =
        .error "Both primary and fallback providers failed to initialize") := by
  refine ⟨?_, ?_, ?_, ?_, ?_⟩
  · intro sanitize st x now sendResult o
    unfold recordMetric
    exact processEvent_ok ..
  · intro sanitize st x now sendResult o
    unfold recordLog
    exact processEvent_ok ..
  · intro st now endResult
    unfold endTrace
    split
    · rfl
    · split <;> rfl
  · intro sanitize st x now e o hgate
    unfold startTrace
    split
    · rename_i cb1 heq
      rw [heq] at hgate
      simp at hgate
    · rfl
  · intro st now e1 e2 o hinit hfb
    unfold initializeCore switchToFallback
    rw [hinit, hfb]
    rfl

/-- Witness for C1's amended theorem: a failing provider with the fresh
closed core makes metric/log/endTrace calls return normally, makes
startTrace rethrow, and a doubly-failing initialize surfaces the
both-providers-failed error. -/
theorem api_delivery_failure_surface_witness :
    (recordMetric cfgCB5 retryDefault 1000 id freshCoreState 7 100
        (.error "boom") oAllOk).2 = .ok () ∧
    (recordLog cfgCB5 retryDefault 1000 id freshCoreState 7 100
        (.error "boom") oAllOk).2 = .ok () ∧
    (endTrace cfgCB5 freshCoreState 100 (.error "boom")).2 = .ok () ∧
    (startTrace cfgCB5 retryDefault 1000 id freshCoreState 7 100
        (.error "boom") oAllOk).2 = .error "boom" ∧
    (initializeCore cfgCB5 retryDefault freshCoreState 100
        (.error "primary down") oBothFail).2
      = .error "Both primary and fallback providers failed to initialize" :=
  ⟨(api_delivery_failure_surface cfgCB5 retryDefault 1000).1 id freshCoreState
      7 100 (.error "boom") oAllOk,
   (api_delivery_failure_surface cfgCB5 retryDefault 1000).2.1 id
      freshCoreState 7 100 (.error "boom") oAllOk,
   (api_delivery_failure_surface cfgCB5 retryDefault 1000).2.2.1 freshCoreState
      100 (.error "boom"),
   (api_delivery_failure_surface cfgCB5 retryDefault 1000).2.2.2.1 id
      freshCoreState 7 100 "boom" oAllOk (by decide),
   (api_delivery_failure_surface cfgCB5 retryDefault 1000).2.2.2.2
      freshCoreState 100 "primary down" "fallback init failed" oBothFail rfl
      rfl⟩

/-! ## C4 — startTrace under a blocking gate -/

/-- C4 counterexample: with the blocking open breaker `blockedCoreState`
(cool-down until 60000, call at 100), `startTrace` returns the synthetic
placeholder id "queued-100" AND ALSO queues the trace envelope — the queue
grows from empty to one entry — refuting the claim's "immediately rather
than queuing the trace event". -/
theorem startTrace_blocked_queues_cex :
    (startTrace cfgCB5 retryDefault 1000 id blockedCoreState 7 100
        (.ok "span-1") oAllOk).2 = .ok ("queued-" ++ toString 100) ∧
    (startTrace cfgCB5 retryDefault 1000 id blockedCoreState 7 100
        (.ok "span-1") oAllOk).1.eventQueue
      = [{ type := .trace, data := 7, timestamp := 100 }] :=
  ⟨rfl, rfl⟩

/-- C4 amended: when the circuit-breaker gate is blocking, `startTrace`
returns the synthetic placeholder id `'queued-' + now` immediately — the
result does not depend on any backend outcome (`startResult` is arbitrary)
— and the sanitized trace event is queued into the bounded FIFO (it is not
the case that queuing is skipped). -/
theorem startTrace_blocked_placeholder_and_queue
    (cbCfg : CircuitBreakerConfig) (retry : RetryConfig) (maxQueueSize : Nat)
    (sanitize : α → α) (st : CoreState α) (trace : α) (now : Nat)
    (startResult : Except String String) (o : SendOutcomes)
    (hgate : (shouldAttemptRequest st.circuitBreakerState now).1 = false) :
    startTrace cbCfg retry maxQueueSize sanitize st trace now startResult o =
      ({ st with
          circuitBreakerState :=
            (shouldAttemptRequest st.circuitBreakerState now).2
          eventQueue := queueEvent maxQueueSize st.eventQueue
            { type := .trace, data := sanitize trace, timestamp := now } },
        .ok ("queued-" ++ toString now)) := by
  unfold startTrace
  split
  · rename_i cb1 heq
    rw [heq]
  · rename_i cb1 heq
    rw [heq] at hgate
    simp at hgate

/-- Witness for C4's amended theorem at the blocking state
`blockedCoreState`, time 100, with an arbitrary successful backend. -/
theorem startTrace_blocked_placeholder_and_queue_witness :
    startTrace cfgCB5 retryDefault 1000 id blockedCoreState 7 100
        (.ok "span-1") oAllOk =
      ({ blockedCoreState with
          circuitBreakerState :=
            (shouldAttemptRequest blockedCoreState.circuitBreakerState 100).2
          eventQueue := queueEvent 1000 blockedCoreState.eventQueue
            { type := .trace, data := id 7, timestamp := 100 } },
        .ok ("queued-" ++ toString 100)) :=
  startTrace_blocked_placeholder_and_queue cfgCB5 retryDefault 1000 id
    blockedCoreState 7 100 (.ok "span-1") oAllOk (by decide)

end Hydropulse
